import Mathlib

/-!
Shallow embedding of `src/main.py` (class `GuitarMouseClicker`) from the
GuitarToClick repository, together with theorems checking the onset-detector
specification against it.

Numeric model: the detector logic (thresholding, debouncing, history) only
compares, subtracts and clamps numbers, so it is embedded over `ℚ` and stays
fully executable.  The RMS volume estimator uses a square root, so it is
embedded over `ℝ`.

State model (`ClickerState`): the instance fields of `GuitarMouseClicker`
that the detection logic reads or writes — `THRESHOLD`, `DEBOUNCE_TIME`,
`WINDOW_SIZE`, `is_running`, `last_click_time`, `volume_history`, and the
`stop_event` flag (`stop_set`).  Console printing, the sounddevice stream
and the pyautogui click are external I/O and are not part of the state.
-/

namespace GuitarToClick

/-- Instance fields of `GuitarMouseClicker` touched by the detector logic
(`src/main.py` lines 17-28). -/
structure ClickerState where
  THRESHOLD : ℚ
  DEBOUNCE_TIME : ℚ
  WINDOW_SIZE : ℕ
  is_running : Bool
  last_click_time : ℚ
  volume_history : List ℚ
  stop_set : Bool
deriving DecidableEq, Repr

/-- The state built by `GuitarMouseClicker.__init__` (lines 17-28):
threshold 0.01, debounce 0.2 s, window 5, not running, `last_click_time = 0`,
empty history, stop event initially unset. -/
def initState : ClickerState :=
  { THRESHOLD := 1/100
    DEBOUNCE_TIME := 1/5
    WINDOW_SIZE := 5
    is_running := false
    last_click_time := 0
    volume_history := []
    stop_set := false }

/-- Appending to a `collections.deque` with `maxlen` (line 24): the deque
keeps the last `maxlen` elements of the extended sequence, evicting from the
front. -/
def dequeAppend (maxlen : ℕ) (xs : List ℚ) (x : ℚ) : List ℚ :=
  let ys := xs ++ [x]
  ys.drop (ys.length - maxlen)

/-- `GuitarMouseClicker.should_click` (lines 77-93).  `current_time` stands
for the `time.time()` value read at entry; the method appends the volume to
the history, then triggers iff the volume strictly exceeds `THRESHOLD` and
strictly more than `DEBOUNCE_TIME` has elapsed since `last_click_time`,
updating `last_click_time` on a trigger.  Returns the decision and the
updated state. -/
def should_click (current_time current_volume : ℚ) (s : ClickerState) :
    Bool × ClickerState :=
  let s1 := { s with
    volume_history := dequeAppend s.WINDOW_SIZE s.volume_history current_volume }
  let volume_spike := decide (s.THRESHOLD < current_volume)
  let time_passed := decide (s.DEBOUNCE_TIME < current_time - s.last_click_time)
  if volume_spike && time_passed then
    (true, { s1 with last_click_time := current_time })
  else
    (false, s1)

lemma should_click_fst_iff (t v : ℚ) (s : ClickerState) :
    (should_click t v s).1 = true ↔
      s.THRESHOLD < v ∧ s.DEBOUNCE_TIME < t - s.last_click_time := by
  unfold should_click
  dsimp only
  split
  · next h =>
    simp only [Bool.and_eq_true, decide_eq_true_eq] at h
    simpa using h
  · next h =>
    simp only [Bool.and_eq_true, decide_eq_true_eq] at h
    simpa using h

lemma should_click_snd_true (t v : ℚ) (s : ClickerState)
    (h : (should_click t v s).1 = true) :
    (should_click t v s).2 =
      { s with
        volume_history := dequeAppend s.WINDOW_SIZE s.volume_history v
        last_click_time := t } := by
  unfold should_click at h ⊢
  dsimp only at h ⊢
  split <;> simp_all

lemma should_click_snd_false (t v : ℚ) (s : ClickerState)
    (h : (should_click t v s).1 = false) :
    (should_click t v s).2 =
      { s with
        volume_history := dequeAppend s.WINDOW_SIZE s.volume_history v } := by
  unfold should_click at h ⊢
  dsimp only at h ⊢
  split <;> simp_all

lemma should_click_config (t v : ℚ) (s : ClickerState) :
    (should_click t v s).2.THRESHOLD = s.THRESHOLD ∧
      (should_click t v s).2.DEBOUNCE_TIME = s.DEBOUNCE_TIME ∧
      (should_click t v s).2.WINDOW_SIZE = s.WINDOW_SIZE := by
  unfold should_click
  dsimp only
  split <;> exact ⟨rfl, rfl, rfl⟩

lemma should_click_lct_false (t v : ℚ) (s : ClickerState)
    (h : (should_click t v s).1 = false) :
    (should_click t v s).2.last_click_time = s.last_click_time := by
  rw [should_click_snd_false t v s h]

lemma should_click_lct_true (t v : ℚ) (s : ClickerState)
    (h : (should_click t v s).1 = true) :
    (should_click t v s).2.last_click_time = t := by
  rw [should_click_snd_true t v s h]

/-- C1: `should_click(currentVolume)` at time `now` returns true iff the
volume strictly exceeds `THRESHOLD` and strictly more than `DEBOUNCE_TIME`
has elapsed since `last_click_time`; ties on either comparison never
trigger, and on a true return `last_click_time` is updated to `now`. -/
theorem should_click_decision_rule (s : ClickerState) (now v : ℚ) :
    ((should_click now v s).1 = true ↔
      s.THRESHOLD < v ∧ s.DEBOUNCE_TIME < now - s.last_click_time) ∧
    (v = s.THRESHOLD → (should_click now v s).1 = false) ∧
    (now - s.last_click_time = s.DEBOUNCE_TIME →
      (should_click now v s).1 = false) ∧
    ((should_click now v s).1 = true →
      (should_click now v s).2.last_click_time = now) := by
  refine ⟨should_click_fst_iff now v s, ?_, ?_, should_click_lct_true now v s⟩
  · intro hv
    rw [Bool.eq_false_iff]
    intro htrue
    rcases (should_click_fst_iff now v s).mp htrue with ⟨hlt, _⟩
    exact absurd hlt (by rw [hv]; exact lt_irrefl _)
  · intro ht
    rw [Bool.eq_false_iff]
    intro htrue
    rcases (should_click_fst_iff now v s).mp htrue with ⟨_, hlt⟩
    exact absurd hlt (by rw [ht]; exact lt_irrefl _)

/-- Witness for C1: on the initial state, a call at time 1 with volume 1
triggers and records time 1. -/
theorem should_click_decision_rule_witness :
    (should_click 1 1 initState).1 = true ∧
      (should_click 1 1 initState).2.last_click_time = 1 := by
  have h := should_click_decision_rule initState 1 1
  have htrue : (should_click 1 1 initState).1 = true :=
    h.1.mpr ⟨by norm_num [initState], by norm_num [initState]⟩
  exact ⟨htrue, h.2.2.2 htrue⟩

/-- C2 counterexample: on the fresh state of `__init__` (no trigger has ever
occurred, `last_click_time = 0`), a first call at time 0.1 with volume 0.02
— strictly above the 0.01 threshold — returns false, because the code tests
`now - 0 > 0.2`; so the first call does NOT trigger for every value of
`now`. -/
theorem should_click_first_call_cex :
    initState.last_click_time = 0 ∧
      initState.THRESHOLD < 2/100 ∧
      (should_click (1/10) (2/100) initState).1 = false := by
  refine ⟨rfl, by norm_num [initState], ?_⟩
  norm_num [should_click, initState]

/-- C2 (amended): on the first-ever call (`last_click_time` still holds its
initial value 0) with volume strictly above the threshold, the call returns
true iff `now > DEBOUNCE_TIME`; with wall-clock epoch times this holds for
every realistic `now`, but not unconditionally. -/
theorem should_click_first_call (s : ClickerState) (now v : ℚ)
    (h0 : s.last_click_time = 0) (hv : s.THRESHOLD < v) :
    (should_click now v s).1 = true ↔ s.DEBOUNCE_TIME < now := by
  rw [should_click_fst_iff, h0, sub_zero]
  exact and_iff_right hv

/-- Witness for C2 (amended): the first call at time 1 with volume 1
triggers on the initial state. -/
theorem should_click_first_call_witness :
    (should_click 1 1 initState).1 = true :=
  (should_click_first_call initState 1 1 rfl (by norm_num [initState])).mpr
    (by norm_num [initState])

/-- Running a list of `(time, volume)` calls through `should_click` from a
given state, collecting each call's decision and the final state.  This
models the per-block invocations performed by `audio_callback`
(lines 95-115), which the backend delivers sequentially. -/
def runTrace (s : ClickerState) : List (ℚ × ℚ) → List Bool × ClickerState
  | [] => ([], s)
  | (t, v) :: rest =>
    let r := should_click t v s
    let w := runTrace r.2 rest
    (r.1 :: w.1, w.2)

lemma runTrace_config (s : ClickerState) (calls : List (ℚ × ℚ)) :
    (runTrace s calls).2.THRESHOLD = s.THRESHOLD ∧
      (runTrace s calls).2.DEBOUNCE_TIME = s.DEBOUNCE_TIME := by
  induction calls generalizing s with
  | nil => exact ⟨rfl, rfl⟩
  | cons p rest ih =>
    obtain ⟨t, v⟩ := p
    have hc := should_click_config t v s
    have hr := ih (should_click t v s).2
    exact ⟨hr.1.trans hc.1, hr.2.trans hc.2.1⟩

lemma runTrace_false_lct (s : ClickerState) (calls : List (ℚ × ℚ))
    (h : ∀ b ∈ (runTrace s calls).1, b = false) :
    (runTrace s calls).2.last_click_time = s.last_click_time := by
  induction calls generalizing s with
  | nil => rfl
  | cons p rest ih =>
    obtain ⟨t, v⟩ := p
    have hhead : (should_click t v s).1 = false :=
      h _ (List.mem_cons_self _ _)
    have htail : ∀ b ∈ (runTrace (should_click t v s).2 rest).1, b = false := by
      intro b hb
      exact h b (List.mem_cons_of_mem _ hb)
    have := ih (should_click t v s).2 htail
    simpa [runTrace, this] using should_click_lct_false t v s hhead

lemma runTrace_window_false (s : ClickerState) (t0 : ℚ)
    (hlct : s.last_click_time = t0) (calls : List (ℚ × ℚ))
    (hin : ∀ p ∈ calls, t0 < p.1 ∧ p.1 ≤ t0 + s.DEBOUNCE_TIME) :
    ∀ b ∈ (runTrace s calls).1, b = false := by
  induction calls generalizing s with
  | nil => intro b hb; simp [runTrace] at hb
  | cons p rest ih =>
    obtain ⟨t, v⟩ := p
    have hp := hin (t, v) (List.mem_cons_self _ _)
    have hhead : (should_click t v s).1 = false := by
      rw [Bool.eq_false_iff]
      intro htrue
      rcases (should_click_fst_iff t v s).mp htrue with ⟨_, hlt⟩
      rw [hlct] at hlt
      linarith [hp.2]
    intro b hb
    rcases List.mem_cons.mp (by simpa [runTrace] using hb) with hb1 | hb2
    · rw [hb1, hhead]
    · have hlct1 : (should_click t v s).2.last_click_time = t0 :=
        (should_click_lct_false t v s hhead).trans hlct
      have hD := (should_click_config t v s).2.1
      refine ih (should_click t v s).2 hlct1 ?_ b hb2
      intro q hq
      have := hin q (List.mem_cons_of_mem _ hq)
      rwa [hD]

/-- C3: if a call at time `t0` triggers, every later call with a time in
the half-open window `(t0, t0 + DEBOUNCE_TIME]` returns false regardless of
its volume; and, provided no intervening call triggered, a call at
`t0 + DEBOUNCE_TIME + ε` (`ε > 0`) with volume strictly above the threshold
triggers again. -/
theorem should_click_debounce_law (s : ClickerState) (t0 v0 : ℚ)
    (htrig : (should_click t0 v0 s).1 = true) :
    (∀ calls : List (ℚ × ℚ),
        (∀ p ∈ calls, t0 < p.1 ∧ p.1 ≤ t0 + s.DEBOUNCE_TIME) →
        ∀ b ∈ (runTrace (should_click t0 v0 s).2 calls).1, b = false) ∧
    (∀ calls : List (ℚ × ℚ), ∀ ε vf : ℚ, 0 < ε → s.THRESHOLD < vf →
        (∀ b ∈ (runTrace (should_click t0 v0 s).2 calls).1, b = false) →
        (should_click (t0 + s.DEBOUNCE_TIME + ε) vf
          (runTrace (should_click t0 v0 s).2 calls).2).1 = true) := by
  have hlct : (should_click t0 v0 s).2.last_click_time = t0 :=
    should_click_lct_true t0 v0 s htrig
  have hcfg := should_click_config t0 v0 s
  constructor
  · intro calls hin
    refine runTrace_window_false _ t0 hlct calls ?_
    intro p hp
    have := hin p hp
    rwa [hcfg.2.1]
  · intro calls ε vf hε hvf hfalse
    set s2 := (runTrace (should_click t0 v0 s).2 calls).2 with hs2
    have h2lct : s2.last_click_time = t0 :=
      (runTrace_false_lct _ calls hfalse).trans hlct
    have h2cfg := runTrace_config (should_click t0 v0 s).2 calls
    rw [should_click_fst_iff]
    constructor
    · rw [← hs2] at h2cfg
      rw [h2cfg.1, hcfg.1]
      exact hvf
    · rw [← hs2] at h2cfg
      rw [h2cfg.2, hcfg.2.1, h2lct]
      linarith

/-- Witness for C3: after a trigger at time 1 on the initial state, with no
intervening calls, a call at time `1 + DEBOUNCE_TIME + 1` with volume 1
triggers again. -/
theorem should_click_debounce_law_witness :
    (should_click (1 + initState.DEBOUNCE_TIME + 1) 1
      (runTrace (should_click 1 1 initState).2 []).2).1 = true :=
  (should_click_debounce_law initState 1 1
      (by norm_num [should_click, initState])).2 [] 1 1
    (by norm_num) (by norm_num [initState]) (by simp [runTrace])

/-- `GuitarMouseClicker.calculate_volume` (lines 71-75): RMS of a sample
list, `sqrt(mean(x_i^2))`, returning 0 exactly on an empty list.  The sample
list is the single channel extracted by `audio_callback` (lines 104-107).
Real-valued because of the square root; it reads no detector state. -/
noncomputable def calculate_volume (audio_data : List ℝ) : ℝ :=
  if audio_data.length = 0 then 0
  else Real.sqrt ((audio_data.map (fun x => x ^ 2)).sum / (audio_data.length : ℝ))

/-- C4: `calculate_volume` is non-negative on every block, returns 0 exactly
on the empty block and on every all-zero block, and on a non-empty block
equals the root-mean-square `sqrt(mean(x_i^2))` of its samples. -/
theorem calculate_volume_rms (xs : List ℝ) (n : ℕ) :
    0 ≤ calculate_volume xs ∧
    calculate_volume [] = 0 ∧
    calculate_volume (List.replicate n 0) = 0 ∧
    (xs ≠ [] → calculate_volume xs =
      Real.sqrt ((xs.map (fun x => x ^ 2)).sum / (xs.length : ℝ))) := by
  refine ⟨?_, by simp [calculate_volume], ?_, ?_⟩
  · unfold calculate_volume
    split
    · exact le_refl 0
    · exact Real.sqrt_nonneg _
  · cases n with
    | zero => simp [calculate_volume]
    | succ m =>
      simp [calculate_volume, List.map_replicate, List.sum_replicate]
  · intro h
    unfold calculate_volume
    rw [if_neg]
    simpa using h

/-- Witness for C4: on the one-sample block `[1]` the RMS formula applies. -/
theorem calculate_volume_rms_witness :
    calculate_volume [(1 : ℝ)] =
      Real.sqrt ((([(1 : ℝ)]).map (fun x => x ^ 2)).sum /
        ((([(1 : ℝ)]).length : ℕ) : ℝ)) :=
  (calculate_volume_rms [1] 0).2.2.2 (by simp)

lemma dequeAppend_length_le_of_le (m : ℕ) (xs : List ℚ) (x : ℚ)
    (h : xs.length ≤ m) : (dequeAppend m xs x).length ≤ m := by
  unfold dequeAppend
  dsimp only
  rw [List.length_drop]
  simp only [List.length_append, List.length_singleton]
  omega

lemma dequeAppend_full (m : ℕ) (xs : List ℚ) (x : ℚ) (hm : 1 ≤ m)
    (hlen : xs.length = m) : dequeAppend m xs x = xs.tail ++ [x] := by
  unfold dequeAppend
  dsimp only
  have hk : xs.length + 1 - m = 1 := by omega
  rw [List.length_append, List.length_singleton, hk,
    List.drop_append_of_le_length (by omega), List.drop_one]

lemma dequeAppend_getLast (m : ℕ) (xs : List ℚ) (x : ℚ) (hm : 1 ≤ m) :
    (dequeAppend m xs x).getLast? = some x := by
  unfold dequeAppend
  dsimp only
  rw [List.length_append, List.length_singleton,
    List.drop_append_of_le_length (by omega)]
  exact List.getLast?_concat _

/-- C5: every `should_click` call appends the current volume to the history
(it becomes the newest entry); the history length never exceeds
`WINDOW_SIZE`; at capacity the oldest entry is evicted (FIFO); and the
history contents have no effect on the trigger decision. -/
theorem should_click_history (s : ClickerState) (t v : ℚ) (h2 : List ℚ) :
    ((should_click t v s).2.volume_history =
      dequeAppend s.WINDOW_SIZE s.volume_history v) ∧
    (s.volume_history.length ≤ s.WINDOW_SIZE →
      (should_click t v s).2.volume_history.length ≤ s.WINDOW_SIZE) ∧
    (1 ≤ s.WINDOW_SIZE →
      (should_click t v s).2.volume_history.getLast? = some v) ∧
    (1 ≤ s.WINDOW_SIZE → s.volume_history.length = s.WINDOW_SIZE →
      (should_click t v s).2.volume_history =
        s.volume_history.tail ++ [v]) ∧
    ((should_click t v { s with volume_history := h2 }).1 =
      (should_click t v s).1) := by
  have hhist : (should_click t v s).2.volume_history =
      dequeAppend s.WINDOW_SIZE s.volume_history v := by
    unfold should_click
    dsimp only
    split <;> rfl
  refine ⟨hhist, ?_, ?_, ?_, ?_⟩
  · intro hle
    rw [hhist]
    exact dequeAppend_length_le_of_le _ _ _ hle
  · intro hm
    rw [hhist]
    exact dequeAppend_getLast _ _ _ hm
  · intro hm hlen
    rw [hhist]
    exact dequeAppend_full _ _ _ hm hlen
  · rw [Bool.eq_iff_iff, should_click_fst_iff, should_click_fst_iff]

/-- Witness for C5: on a state at capacity (window 5, five readings), a call
appends the new volume, keeps the length at 5, and evicts the oldest
reading. -/
theorem should_click_history_witness :
    ((should_click 1 (3 : ℚ)
        { initState with volume_history := [4, 5, 6, 7, 8] }).2.volume_history
      = [5, 6, 7, 8, 3]) ∧
    ((should_click 1 (3 : ℚ)
        { initState with volume_history := [4, 5, 6, 7, 8] }).2.volume_history.length
      ≤ ({ initState with volume_history := [4, 5, 6, 7, 8] } : ClickerState).WINDOW_SIZE) := by
  have h := should_click_history
    { initState with volume_history := [4, 5, 6, 7, 8] } 1 3 []
  refine ⟨?_, h.2.1 (by norm_num [initState])⟩
  rw [h.2.2.2.1 (by norm_num [initState]) (by norm_num [initState])]
  rfl

/-- The state transition performed at entry of `GuitarMouseClicker.start`
(lines 125-132): if already running it returns immediately (printing
`Already running!`) leaving the state untouched; otherwise it sets
`is_running` and clears the stop event before opening the stream.  Nothing
else in `start` writes detector state (the stream loop and the `finally`
branch are I/O plus a call to `stop`). -/
def start_enter (s : ClickerState) : ClickerState :=
  if s.is_running then s
  else { s with is_running := true, stop_set := false }

/-- `GuitarMouseClicker.stop` (lines 166-171): unconditionally clears
`is_running` and sets the stop event; it touches no other field and raises
nothing. -/
def stop (s : ClickerState) : ClickerState :=
  { s with is_running := false, stop_set := true }

/-- `GuitarMouseClicker.adjust_sensitivity` (lines 173-176): clamps the
requested threshold into `[0.001, 1.0]` and stores it; it never rejects an
input. -/
def adjust_sensitivity (new_threshold : ℚ) (s : ClickerState) : ClickerState :=
  { s with THRESHOLD := max (1/1000) (min 1 new_threshold) }

/-- An Idle state left over from a previous run: a reading of 0.03 in the
history and a last trigger at time 7. -/
def staleIdleState : ClickerState :=
  { initState with volume_history := [3/100], last_click_time := 7 }

/-- C6 counterexample: starting from an Idle state carrying a non-empty
history and a non-zero last-trigger timestamp, `start` leaves both exactly
as they were — the detector state is NOT cleared on start. -/
theorem start_enter_cex :
    staleIdleState.is_running = false ∧
    (start_enter staleIdleState).volume_history ≠ [] ∧
    (start_enter staleIdleState).last_click_time ≠ 0 := by
  refine ⟨rfl, ?_, ?_⟩ <;> norm_num [start_enter, staleIdleState, initState]

/-- C6 (amended): `start` from Idle only sets `is_running` and clears the
stop signal; the volume history, the last-trigger timestamp and the
configuration persist unchanged from the previous run. -/
theorem start_enter_from_idle (s : ClickerState) (h : s.is_running = false) :
    start_enter s = { s with is_running := true, stop_set := false } := by
  unfold start_enter
  rw [h]
  rfl

/-- Witness for C6 (amended): starting the initial state sets `is_running`
and leaves everything else at its initial value. -/
theorem start_enter_from_idle_witness :
    start_enter initState =
      { initState with is_running := true, stop_set := false } :=
  start_enter_from_idle initState rfl

/-- C7: `start` while already Running is a no-op: it returns at once and
every field of the state is unchanged. -/
theorem start_enter_noop_when_running (s : ClickerState)
    (h : s.is_running = true) : start_enter s = s := by
  unfold start_enter
  rw [h]
  rfl

/-- Witness for C7: starting an already-running state changes nothing. -/
theorem start_enter_noop_when_running_witness :
    start_enter { initState with is_running := true } =
      { initState with is_running := true } :=
  start_enter_noop_when_running { initState with is_running := true } rfl

/-- C8 counterexample: on the fresh Idle state (stop event still unset),
`stop` is not a no-op — it sets the stop event, so the state after the call
differs from the state before it. -/
theorem stop_cex :
    initState.is_running = false ∧ stop initState ≠ initState := by
  refine ⟨rfl, ?_⟩
  intro h
  have := congrArg ClickerState.stop_set h
  simp [stop, initState] at this

/-- C8 (amended): `stop` is idempotent as a state transition
(`stop ∘ stop = stop`), and on an already-Idle detector it leaves
`is_running`, the history, the last-trigger timestamp and the configuration
unchanged, only (re)setting the stop signal; it raises no error. -/
theorem stop_idempotent (s : ClickerState) :
    stop (stop s) = stop s ∧
    (s.is_running = false →
      (stop s).is_running = s.is_running ∧
      (stop s).volume_history = s.volume_history ∧
      (stop s).last_click_time = s.last_click_time ∧
      (stop s).THRESHOLD = s.THRESHOLD ∧
      (stop s).DEBOUNCE_TIME = s.DEBOUNCE_TIME ∧
      (stop s).stop_set = true) := by
  refine ⟨rfl, ?_⟩
  intro h
  exact ⟨by rw [h]; rfl, rfl, rfl, rfl, rfl, rfl⟩

/-- Witness for C8 (amended): stopping the fresh Idle state twice equals
stopping it once, and the detector fields survive. -/
theorem stop_idempotent_witness :
    stop (stop initState) = stop initState ∧
      (stop initState).volume_history = initState.volume_history :=
  ⟨(stop_idempotent initState).1, ((stop_idempotent initState).2 rfl).2.1⟩

/-- C9 counterexample: configuring the non-positive threshold `-1` does not
surface any error — `adjust_sensitivity` completes normally and stores the
clamped value 0.001. -/
theorem adjust_sensitivity_cex :
    adjust_sensitivity (-1) initState =
      { initState with THRESHOLD := 1/1000 } := by
  unfold adjust_sensitivity
  norm_num

/-- C9 (amended): `adjust_sensitivity` never errors: it clamps every input
into `[0.001, 1]` and stores it, so the invariant `0 < THRESHOLD ≤ 1` holds
after every call, with all other fields untouched.  (No debounce
configuration operation exists in the code.) -/
theorem adjust_sensitivity_invariant (x : ℚ) (s : ClickerState) :
    (adjust_sensitivity x s).THRESHOLD = max (1/1000) (min 1 x) ∧
    0 < (adjust_sensitivity x s).THRESHOLD ∧
    (adjust_sensitivity x s).THRESHOLD ≤ 1 ∧
    (adjust_sensitivity x s).DEBOUNCE_TIME = s.DEBOUNCE_TIME ∧
    (adjust_sensitivity x s).volume_history = s.volume_history ∧
    (adjust_sensitivity x s).last_click_time = s.last_click_time ∧
    (adjust_sensitivity x s).is_running = s.is_running := by
  refine ⟨rfl, ?_, ?_, rfl, rfl, rfl, rfl⟩
  · exact lt_of_lt_of_le (by norm_num) (le_max_left _ _)
  · exact max_le (by norm_num) (min_le_left _ _)

/-- C10: `adjust_sensitivity(x)` sets the threshold to
`min(max(x, 0.001), 1.0)` and never errors; after every call the threshold
lies in `[0.001, 1.0]`, even for zero or negative `x`. -/
theorem adjust_sensitivity_clamp (x : ℚ) (s : ClickerState) :
    (adjust_sensitivity x s).THRESHOLD = min (max x (1/1000)) 1 ∧
    1/1000 ≤ (adjust_sensitivity x s).THRESHOLD ∧
    (adjust_sensitivity x s).THRESHOLD ≤ 1 := by
  refine ⟨?_, le_max_left _ _, max_le (by norm_num) (min_le_left _ _)⟩
  show max (1/1000) (min 1 x) = min (max x (1/1000)) 1
  rw [max_min_distrib_left, max_eq_right (by norm_num : (1:ℚ)/1000 ≤ 1),
    max_comm, min_comm]

end GuitarToClick
